import Mathlib

/-!
Shallow embedding of `src/hooks/useChat.ts` (the ChatSession Controller of a
customer-support chat widget).  The hook's local React state is modelled by
`ChatState`; the remote Supabase store by `DB`; every hook function is a pure
Lean function from its inputs (current identity, database contents, and the
success or failure of the network calls it makes) to the list of observable
effects it performs (state writes, toast alerts, database writes).  Query
results are modelled from the query each function issues: filters become
`List.filter`, `order(...)` becomes `List.insertionSort`, `maybeSingle`
becomes `List.find?`, and the PostgREST relational embeds (`profiles!...`)
become lookups into a `profiles` collection.
-/

/-- The authenticated actor: `user` from `useAuth()`, carrying an id and a
role (the code only distinguishes role `customer` from everything else). -/
structure Identity where
  id : String
  role : String
deriving DecidableEq, Repr

/-- A row of the `profiles` collection, source of the denormalized display
info joined into room and message queries. -/
structure Profile where
  id : String
  name : String
  email : String
  role : String
deriving DecidableEq, Repr

/-- A row of the `chat_rooms` collection. -/
structure ChatRoom where
  id : String
  customer_id : String
  agent_id : Option String
  status : String
  created_at : Nat
  updated_at : Nat
deriving DecidableEq, Repr

/-- A row of the `chat_messages` collection. -/
structure Message where
  id : String
  chat_room_id : String
  sender_id : String
  message : String
  created_at : Nat
deriving DecidableEq, Repr

/-- The Remote Data Service contents: the two record collections plus the
`profiles` collection used by the relational embeds. -/
structure DB where
  chat_rooms : List ChatRoom
  chat_messages : List Message
  profiles : List Profile
deriving DecidableEq, Repr

/-- `(name, email)` projection of a profile, as selected by
`profiles!customer_id(name, email)` and `profiles!agent_id(name, email)`. -/
structure ProfileNE where
  name : String
  email : String
deriving DecidableEq, Repr

/-- `(name, role)` projection of a profile, as selected by
`profiles!sender_id(name, role)`. -/
structure ProfileNR where
  name : String
  role : String
deriving DecidableEq, Repr

/-- Left-join lookup of a profile by id, projected to `(name, email)`. -/
def lookupNE (ps : List Profile) (pid : String) : Option ProfileNE :=
  (ps.find? (fun p => p.id == pid)).map (fun p => ⟨p.name, p.email⟩)

/-- Left-join lookup of a profile by id, projected to `(name, role)`. -/
def lookupNR (ps : List Profile) (pid : String) : Option ProfileNR :=
  (ps.find? (fun p => p.id == pid)).map (fun p => ⟨p.name, p.role⟩)

/-- A `chat_rooms` row as returned by `fetchChatRooms`: all row fields plus
the joined customer/agent display info (the `transformedData` mapping in the
source copies every field across). -/
structure ChatRoomView where
  id : String
  customer_id : String
  agent_id : Option String
  status : String
  created_at : Nat
  updated_at : Nat
  customer : Option ProfileNE
  agent : Option ProfileNE
deriving DecidableEq, Repr

/-- The underlying `chat_rooms` row of a view. -/
def ChatRoomView.toRow (v : ChatRoomView) : ChatRoom :=
  ⟨v.id, v.customer_id, v.agent_id, v.status, v.created_at, v.updated_at⟩

/-- A `chat_messages` row as returned by `fetchMessages`: all row fields plus
the joined sender display info. -/
structure MessageView where
  id : String
  chat_room_id : String
  sender_id : String
  message : String
  created_at : Nat
  sender : Option ProfileNR
deriving DecidableEq, Repr

/-- The underlying `chat_messages` row of a view. -/
def MessageView.toRow (v : MessageView) : Message :=
  ⟨v.id, v.chat_room_id, v.sender_id, v.message, v.created_at⟩

/-- Join a room row with its customer/agent display info. -/
def toRoomView (ps : List Profile) (r : ChatRoom) : ChatRoomView :=
  ⟨r.id, r.customer_id, r.agent_id, r.status, r.created_at, r.updated_at,
   lookupNE ps r.customer_id,
   match r.agent_id with
   | some a => lookupNE ps a
   | none => none⟩

/-- Join a message row with its sender display info. -/
def toMsgView (ps : List Profile) (m : Message) : MessageView :=
  ⟨m.id, m.chat_room_id, m.sender_id, m.message, m.created_at,
   lookupNR ps m.sender_id⟩

/-- `order updated_at descending` comparison used by the room query. -/
def roomGe (a b : ChatRoom) : Prop := b.updated_at ≤ a.updated_at

instance : DecidableRel roomGe := fun a b => Nat.decLe b.updated_at a.updated_at

instance : IsTotal ChatRoom roomGe :=
  ⟨fun a b => by unfold roomGe; exact Nat.le_total _ _⟩

instance : IsTrans ChatRoom roomGe :=
  ⟨fun _ _ _ h h' => by unfold roomGe at *; exact Nat.le_trans h' h⟩

/-- `order created_at ascending` comparison used by the message query. -/
def msgLe (a b : Message) : Prop := a.created_at ≤ b.created_at

instance : DecidableRel msgLe := fun a b => Nat.decLe a.created_at b.created_at

instance : IsTotal Message msgLe :=
  ⟨fun a b => by unfold msgLe; exact Nat.le_total _ _⟩

instance : IsTrans Message msgLe :=
  ⟨fun _ _ _ h h' => by unfold msgLe at *; exact Nat.le_trans h h'⟩

/-- The room-list query of `fetchChatRooms`: all of `chat_rooms`, ordered by
`updated_at` descending, restricted to `customer_id = user.id` when the
identity role is `customer`. -/
def roomsQuery (u : Identity) (db : DB) : List ChatRoom :=
  List.insertionSort roomGe
    (if u.role = "customer" then
      db.chat_rooms.filter (fun r => r.customer_id == u.id)
    else
      db.chat_rooms)

/-- The transformed room list `fetchChatRooms` stores into state on success. -/
def roomViews (u : Identity) (db : DB) : List ChatRoomView :=
  (roomsQuery u db).map (toRoomView db.profiles)

/-- The message-list query of `fetchMessages`: `chat_messages` rows of the
given room, ordered by `created_at` ascending. -/
def messagesQuery (db : DB) (chatRoomId : String) : List Message :=
  List.insertionSort msgLe
    (db.chat_messages.filter (fun m => m.chat_room_id == chatRoomId))

/-- The joined message list `fetchMessages` stores into state on success. -/
def msgViews (db : DB) (chatRoomId : String) : List MessageView :=
  (messagesQuery db chatRoomId).map (toMsgView db.profiles)

/-- An observable effect of a hook function: a React state write, a toast
alert, or a write against the Remote Data Service. -/
inductive Effect where
  | setLoading (b : Bool)
  | setChatRooms (rooms : List ChatRoomView)
  | setMessages (msgs : List MessageView)
  | toastMsg (title description : String)
  | insertMsg (chatRoomId senderId text : String)
  | touchRoom (chatRoomId : String) (now : Nat)
  | insertRoom (room : ChatRoom)
  | updateRoom (chatRoomId status : String) (agentId : Option String)
deriving DecidableEq, Repr

/-- The hook's local React state. -/
structure ChatState where
  chatRooms : List ChatRoomView
  selectedChat : Option ChatRoomView
  messages : List MessageView
  loading : Bool
deriving DecidableEq, Repr

/-- How a single effect acts on the local state (database writes and toasts
do not touch it). -/
def applyEffect (st : ChatState) : Effect → ChatState
  | .setLoading b => { st with loading := b }
  | .setChatRooms rs => { st with chatRooms := rs }
  | .setMessages ms => { st with messages := ms }
  | _ => st

/-- Run a trace of effects over the local state. -/
def applyEffects (st : ChatState) (es : List Effect) : ChatState :=
  es.foldl applyEffect st

/-- The loading-flag writes contained in a trace, in order. -/
def loadingWrites (es : List Effect) : List Bool :=
  es.filterMap (fun e => match e with | .setLoading b => some b | _ => none)

/-- Whether a trace contains a toast alert. -/
def hasToast (es : List Effect) : Bool :=
  es.any (fun e => match e with | .toastMsg _ _ => true | _ => false)

/-- Strip leading and trailing whitespace from a character list. -/
def trimChars (s : List Char) : List Char :=
  (((s.dropWhile Char.isWhitespace).reverse).dropWhile Char.isWhitespace).reverse

/-- Model of the JavaScript `String.prototype.trim()` used by `sendMessage`:
strips leading and trailing whitespace. -/
def jsTrim (s : String) : String := ⟨trimChars s.data⟩

/-- `fetchChatRooms` from `useChat.ts`: returns early with no effect when no
identity is present; otherwise runs the room query.  On query error it toasts
and returns; on success it stores the transformed room list.  Either way the
`finally` block clears the loading flag. -/
def fetchChatRooms (user : Option Identity) (db : DB) (queryFails : Bool) :
    List Effect :=
  match user with
  | none => []
  | some u =>
    if queryFails then
      [Effect.toastMsg "Error" "Failed to load chat rooms", Effect.setLoading false]
    else
      [Effect.setChatRooms (roomViews u db), Effect.setLoading false]

/-- `fetchMessages` from `useChat.ts`: runs the message query for the given
room; on success (`!error`) it stores the joined message list, on failure it
does nothing at all (no state write, no toast). -/
def fetchMessages (db : DB) (chatRoomId : String) (queryFails : Bool) :
    List Effect :=
  if queryFails then [] else [Effect.setMessages (msgViews db chatRoomId)]

/-- `sendMessage` from `useChat.ts`: returns early when no identity is present
or the trimmed text is empty; otherwise inserts the message row, toasts if the
insert failed, and in either case updates the parent room's `updated_at`. -/
def sendMessage (user : Option Identity) (chatRoomId text : String) (now : Nat)
    (insertFails : Bool) : List Effect :=
  match user with
  | none => []
  | some u =>
    if jsTrim text = "" then []
    else
      [Effect.insertMsg chatRoomId u.id (jsTrim text)] ++
      (if insertFails then [Effect.toastMsg "Error" "Failed to send message"] else []) ++
      [Effect.touchRoom chatRoomId now]

/-- `updateChatStatus` from `useChat.ts`: returns early when no identity is
present or the identity role is `customer`; otherwise updates the room's
status (and its agent assignment when a truthy agent id is supplied), toasting
on failure.  The `if (agentId)` truthiness test drops an empty-string id. -/
def updateChatStatus (user : Option Identity) (chatRoomId status : String)
    (agentId : Option String) (updateFails : Bool) : List Effect :=
  match user with
  | none => []
  | some u =>
    if u.role = "customer" then []
    else
      [Effect.updateRoom chatRoomId status (agentId.filter (fun a => a != ""))] ++
      (if updateFails then [Effect.toastMsg "Error" "Failed to update chat status"] else [])

/-- The record `getOrCreateChatRoom` would insert: backend-generated id and
timestamps, the caller's `customer_id`, status `waiting`, no agent. -/
def newWaitingRoom (cid freshId : String) (now : Nat) : ChatRoom :=
  ⟨freshId, cid, none, "waiting", now, now⟩

/-- The outcome of `getOrCreateChatRoom`: its return value, the database after
any insert it performed, and its observable effects. -/
structure GoResult where
  ret : Option ChatRoom
  db : DB
  effects : List Effect
deriving DecidableEq, Repr

/-- Model of the PostgREST `maybeSingle` result on a filtered row set: the
row when exactly one row matches; `null` data when zero rows match, and also
when two or more rows match (in that case `maybeSingle` reports an error,
which the calling code destructures away and ignores). -/
def maybeSingle {α : Type} : List α → Option α
  | [a] => some a
  | _ => none

/-- `getOrCreateChatRoom` from `useChat.ts`: returns `null` unless the
identity role is `customer`; looks up an existing room of the identity with
`maybeSingle` (so the lookup yields a room only when the identity owns
exactly one room — with two or more, the ignored-error path leaves
`existingRoom` null); returns the found room, otherwise inserts a room with
status `waiting` and returns the inserted record, toasting and returning
`null` when the insert fails. -/
def getOrCreateChatRoom (user : Option Identity) (db : DB) (freshId : String)
    (now : Nat) (insertFails : Bool) : GoResult :=
  match user with
  | none => ⟨none, db, []⟩
  | some u =>
    if u.role ≠ "customer" then ⟨none, db, []⟩
    else
      match maybeSingle (db.chat_rooms.filter (fun r => r.customer_id == u.id)) with
      | some r => ⟨some r, db, []⟩
      | none =>
        if insertFails then
          ⟨none, db, [Effect.toastMsg "Error" "Failed to create chat room"]⟩
        else
          ⟨some (newWaitingRoom u.id freshId now),
           { db with chat_rooms := db.chat_rooms ++ [newWaitingRoom u.id freshId now] },
           [Effect.insertRoom (newWaitingRoom u.id freshId now)]⟩

/-- A customer identity used by the concrete witnesses. -/
def custUser : Identity := ⟨"cust-1", "customer"⟩

/-- A staff identity used by the concrete witnesses. -/
def agentUser : Identity := ⟨"agent-1", "agent"⟩

/-- A room of `custUser`. -/
def roomA : ChatRoom := ⟨"room-a", "cust-1", none, "active", 1, 5⟩

/-- A room of another customer. -/
def roomB : ChatRoom := ⟨"room-b", "cust-2", some "agent-1", "waiting", 2, 9⟩

/-- A closed room of `custUser`. -/
def closedRoom : ChatRoom := ⟨"room-c", "cust-1", none, "closed", 1, 2⟩

/-- A second room of `custUser`, so that `custUser` holds two rooms in
`dbTwo`. -/
def roomA2 : ChatRoom := ⟨"room-a2", "cust-1", none, "waiting", 3, 7⟩

/-- A database where `custUser` already holds two rooms — a state the
check-then-act race of `getOrCreateChatRoom` can produce. -/
def dbTwo : DB := ⟨[roomA, roomA2], [], []⟩

/-- Two messages of `roomA`, out of creation order. -/
def msg1 : Message := ⟨"msg-1", "room-a", "cust-1", "hello", 4⟩

/-- See `msg1`. -/
def msg2 : Message := ⟨"msg-2", "room-a", "agent-1", "hi there", 3⟩

/-- A message of `roomB`. -/
def msg3 : Message := ⟨"msg-3", "room-b", "cust-2", "other room", 1⟩

/-- A concrete database used by the witnesses. -/
def dbAB : DB :=
  ⟨[roomA, roomB], [msg1, msg2, msg3],
   [⟨"cust-1", "Ann", "ann at example", "customer"⟩,
    ⟨"agent-1", "Bo", "bo at example", "agent"⟩]⟩

/-- The empty database. -/
def dbEmpty : DB := ⟨[], [], []⟩

/-- An initial local state used by the witnesses. -/
def stEx : ChatState := ⟨[], none, [], true⟩

/-- Claim C1: for a customer-role identity the room list is restricted to the
identity's own rooms; for any other role it is all rooms (reordered only). -/
theorem fetchChatRooms_role_filter (u : Identity) (db : DB) :
    fetchChatRooms (some u) db false =
      [Effect.setChatRooms (roomViews u db), Effect.setLoading false] ∧
    (u.role = "customer" → ∀ v ∈ roomViews u db, v.customer_id = u.id) ∧
    (u.role ≠ "customer" →
      List.Perm ((roomViews u db).map ChatRoomView.toRow) db.chat_rooms) := by
  refine ⟨rfl, ?_, ?_⟩
  · intro hrole v hv
    simp only [roomViews, roomsQuery, hrole, if_pos rfl, List.mem_map] at hv
    obtain ⟨r, hr, hv⟩ := hv
    have hr' := (List.perm_insertionSort roomGe _).mem_iff.mp hr
    simp only [if_true] at hr'
    rw [List.mem_filter] at hr'
    have : r.customer_id = u.id := by
      have := hr'.2
      simpa [beq_iff_eq] using this
    subst hv
    simpa [toRoomView] using this
  · intro hrole
    simp only [roomViews, roomsQuery, if_neg hrole]
    have h1 : List.Perm (List.insertionSort roomGe db.chat_rooms) db.chat_rooms :=
      List.perm_insertionSort roomGe db.chat_rooms
    have h2 : ((List.insertionSort roomGe db.chat_rooms).map
        (toRoomView db.profiles)).map ChatRoomView.toRow =
        List.insertionSort roomGe db.chat_rooms := by
      rw [List.map_map]
      have hcomp : (ChatRoomView.toRow ∘ toRoomView db.profiles) = id := by
        funext r
        simp [ChatRoomView.toRow, toRoomView]
      rw [hcomp, List.map_id]
    rw [h2]
    exact h1

/-- Witness for C1 at a concrete staff identity and database. -/
theorem fetchChatRooms_role_filter_witness :
    List.Perm ((roomViews agentUser dbAB).map ChatRoomView.toRow) dbAB.chat_rooms :=
  (fetchChatRooms_role_filter agentUser dbAB).2.2 (by decide)

/-- Claim C7: on success `fetchMessages` replaces the local message list with
exactly the given room's messages, in non-decreasing creation-time order. -/
theorem fetchMessages_ordered (db : DB) (chatRoomId : String) :
    fetchMessages db chatRoomId false =
      [Effect.setMessages (msgViews db chatRoomId)] ∧
    List.Pairwise (fun a b : MessageView => a.created_at ≤ b.created_at)
      (msgViews db chatRoomId) ∧
    (∀ v ∈ msgViews db chatRoomId, v.chat_room_id = chatRoomId) ∧
    List.Perm ((msgViews db chatRoomId).map MessageView.toRow)
      (db.chat_messages.filter (fun m => m.chat_room_id == chatRoomId)) := by
  refine ⟨rfl, ?_, ?_, ?_⟩
  · have hs : List.Pairwise msgLe (messagesQuery db chatRoomId) :=
      List.sorted_insertionSort msgLe _
    exact List.Pairwise.map _ (fun a b hab => hab) hs
  · intro v hv
    simp only [msgViews, List.mem_map] at hv
    obtain ⟨m, hm, hv⟩ := hv
    have hm' := (List.perm_insertionSort msgLe _).mem_iff.mp hm
    rw [List.mem_filter] at hm'
    have : m.chat_room_id = chatRoomId := by simpa [beq_iff_eq] using hm'.2
    subst hv
    simpa [toMsgView] using this
  · have h2 : ((messagesQuery db chatRoomId).map (toMsgView db.profiles)).map
        MessageView.toRow = messagesQuery db chatRoomId := by
      rw [List.map_map]
      have hcomp : (MessageView.toRow ∘ toMsgView db.profiles) = id := by
        funext m
        simp [MessageView.toRow, toMsgView]
      rw [hcomp, List.map_id]
    show List.Perm (((messagesQuery db chatRoomId).map (toMsgView db.profiles)).map
      MessageView.toRow) _
    rw [h2]
    exact List.perm_insertionSort msgLe _

/-- Witness for C7 at a concrete database and room id. -/
theorem fetchMessages_ordered_witness :
    List.Perm ((msgViews dbAB "room-a").map MessageView.toRow)
      (dbAB.chat_messages.filter (fun m => m.chat_room_id == "room-a")) :=
  (fetchMessages_ordered dbAB "room-a").2.2.2

/-- Claim C9: when its query fails, `fetchMessages` performs no effect at all:
the local state (in particular the message list) is untouched and no toast is
raised. -/
theorem fetchMessages_silent_on_failure (db : DB) (chatRoomId : String)
    (st : ChatState) :
    fetchMessages db chatRoomId true = [] ∧
    applyEffects st (fetchMessages db chatRoomId true) = st ∧
    hasToast (fetchMessages db chatRoomId true) = false :=
  ⟨rfl, rfl, rfl⟩

/-- Witness for C9 at a concrete database, room id and state. -/
theorem fetchMessages_silent_on_failure_witness :
    fetchMessages dbAB "room-a" true = [] ∧
    applyEffects stEx (fetchMessages dbAB "room-a" true) = stEx ∧
    hasToast (fetchMessages dbAB "room-a" true) = false :=
  fetchMessages_silent_on_failure dbAB "room-a" stEx

/-- Claim C6: with no identity, or with text that trims to empty,
`sendMessage` performs no effect: no insert, no toast, no state change, no
timestamp touch. -/
theorem sendMessage_noop_on_blank (user : Option Identity)
    (chatRoomId text : String) (now : Nat) (insertFails : Bool) (st : ChatState)
    (h : user = none ∨ jsTrim text = "") :
    sendMessage user chatRoomId text now insertFails = [] ∧
    applyEffects st (sendMessage user chatRoomId text now insertFails) = st := by
  have htr : sendMessage user chatRoomId text now insertFails = [] := by
    rcases h with h | h
    · subst h; rfl
    · cases user with
      | none => rfl
      | some u => simp [sendMessage, h]
  exact ⟨htr, by rw [htr]; rfl⟩

/-- Witness for C6 at a whitespace-only text. -/
theorem sendMessage_noop_on_blank_witness :
    sendMessage (some custUser) "room-a" "   " 3 false = [] ∧
    applyEffects stEx (sendMessage (some custUser) "room-a" "   " 3 false) = stEx :=
  sendMessage_noop_on_blank (some custUser) "room-a" "   " 3 false stEx
    (Or.inr (by decide))

/-- Claim C4: under the precondition (identity present, trimmed text
non-empty), `sendMessage` first inserts the message row and, whether or not
the insert failed, ends by touching the parent room's timestamp; an insert
failure additionally raises an error toast. -/
theorem sendMessage_touch_unconditional (u : Identity) (chatRoomId text : String)
    (now : Nat) (insertFails : Bool) (h : jsTrim text ≠ "") :
    (sendMessage (some u) chatRoomId text now insertFails).head? =
      some (Effect.insertMsg chatRoomId u.id (jsTrim text)) ∧
    (sendMessage (some u) chatRoomId text now insertFails).getLast? =
      some (Effect.touchRoom chatRoomId now) ∧
    (insertFails = true →
      Effect.toastMsg "Error" "Failed to send message" ∈
        sendMessage (some u) chatRoomId text now insertFails) := by
  cases insertFails <;> simp [sendMessage, h]

/-- Witness for C4 at a failing insert. -/
theorem sendMessage_touch_unconditional_witness :
    (sendMessage (some custUser) "room-a" " hi " 3 true).getLast? =
      some (Effect.touchRoom "room-a" 3) ∧
    Effect.toastMsg "Error" "Failed to send message" ∈
      sendMessage (some custUser) "room-a" " hi " 3 true :=
  ⟨(sendMessage_touch_unconditional custUser "room-a" " hi " 3 true (by decide)).2.1,
   (sendMessage_touch_unconditional custUser "room-a" " hi " 3 true (by decide)).2.2 rfl⟩

/-- Claim C8: `updateChatStatus` invoked with no identity or by a
customer-role identity performs no update (the guard returns early with no
effect). -/
theorem updateChatStatus_guard (user : Option Identity)
    (chatRoomId status : String) (agentId : Option String) (updateFails : Bool)
    (st : ChatState)
    (h : user = none ∨ ∃ u, user = some u ∧ u.role = "customer") :
    updateChatStatus user chatRoomId status agentId updateFails = [] ∧
    applyEffects st (updateChatStatus user chatRoomId status agentId updateFails) = st := by
  have htr : updateChatStatus user chatRoomId status agentId updateFails = [] := by
    rcases h with h | ⟨u, hu, hrole⟩
    · subst h; rfl
    · subst hu; simp [updateChatStatus, hrole]
  exact ⟨htr, by rw [htr]; rfl⟩

/-- Witness for C8 at a concrete customer identity. -/
theorem updateChatStatus_guard_witness :
    updateChatStatus (some custUser) "room-a" "closed" none false = [] ∧
    applyEffects stEx (updateChatStatus (some custUser) "room-a" "closed" none false) = stEx :=
  updateChatStatus_guard (some custUser) "room-a" "closed" none false stEx
    (Or.inr ⟨custUser, rfl, rfl⟩)

/-- Counterexample to C5 as stated: an invocation of `fetchChatRooms` with no
identity present returns before the `try`/`finally`, so the loading flag is
written zero times, not exactly once. -/
theorem fetchChatRooms_loading_cex :
    ¬ (∀ (user : Option Identity) (db : DB) (queryFails : Bool),
        loadingWrites (fetchChatRooms user db queryFails) = [false]) := by
  intro h
  have hnone := h none dbEmpty false
  simp [fetchChatRooms, loadingWrites] at hnone

/-- Claim C5, amended: for every invocation of `fetchChatRooms` with an
identity present, the loading flag is written exactly once, with value
`false`, even when the underlying query fails (so a flag that was `true`
transitions to `false` exactly once); with no identity present the flag is
not written at all. -/
theorem fetchChatRooms_loading_cleared (u : Identity) (db : DB)
    (queryFails : Bool) :
    loadingWrites (fetchChatRooms (some u) db queryFails) = [false] := by
  cases queryFails <;> rfl

/-- Witness for amended C5 at a failing query. -/
theorem fetchChatRooms_loading_cleared_witness :
    loadingWrites (fetchChatRooms (some custUser) dbAB true) = [false] :=
  fetchChatRooms_loading_cleared custUser dbAB true

/-- Claim C2: for a customer identity with no existing room,
`getOrCreateChatRoom` inserts a room with status `waiting` and
`customer_id` equal to the identity's id and returns that inserted record;
when the lookup finds an existing room it returns it with no insert and no
other effect. -/
theorem getOrCreateChatRoom_create_or_find (u : Identity) (db : DB)
    (freshId : String) (now : Nat) (hrole : u.role = "customer") :
    ((∀ r ∈ db.chat_rooms, r.customer_id ≠ u.id) →
      (getOrCreateChatRoom (some u) db freshId now false).ret =
        some (newWaitingRoom u.id freshId now) ∧
      (newWaitingRoom u.id freshId now).status = "waiting" ∧
      (newWaitingRoom u.id freshId now).customer_id = u.id ∧
      (getOrCreateChatRoom (some u) db freshId now false).db.chat_rooms =
        db.chat_rooms ++ [newWaitingRoom u.id freshId now]) ∧
    (∀ r, maybeSingle (db.chat_rooms.filter (fun x => x.customer_id == u.id)) =
        some r →
      ∀ insertFails,
        (getOrCreateChatRoom (some u) db freshId now insertFails).ret = some r ∧
        (getOrCreateChatRoom (some u) db freshId now insertFails).db = db ∧
        (getOrCreateChatRoom (some u) db freshId now insertFails).effects = []) := by
  constructor
  · intro hnone
    have hfilter : db.chat_rooms.filter (fun x => x.customer_id == u.id) = [] := by
      rw [List.filter_eq_nil_iff]
      intro x hx
      simpa [beq_iff_eq] using hnone x hx
    simp [getOrCreateChatRoom, hrole, hfilter, maybeSingle, newWaitingRoom]
  · intro r hr insertFails
    simp [getOrCreateChatRoom, hrole, hr]

/-- Witness for C2 on the empty database. -/
theorem getOrCreateChatRoom_create_or_find_witness :
    (getOrCreateChatRoom (some custUser) dbEmpty "room-n4" 11 false).ret =
      some (newWaitingRoom custUser.id "room-n4" 11) ∧
    (newWaitingRoom custUser.id "room-n4" 11).status = "waiting" ∧
    (newWaitingRoom custUser.id "room-n4" 11).customer_id = custUser.id ∧
    (getOrCreateChatRoom (some custUser) dbEmpty "room-n4" 11 false).db.chat_rooms =
      dbEmpty.chat_rooms ++ [newWaitingRoom custUser.id "room-n4" 11] :=
  (getOrCreateChatRoom_create_or_find custUser dbEmpty "room-n4" 11 rfl).1
    (by simp [dbEmpty])

/-- When the `maybeSingle` lookup yields a room, `getOrCreateChatRoom`
returns it (whatever the insert-failure flag, since the insert is never
reached). -/
theorem getOrCreateChatRoom_ret_of_single (u : Identity) (db : DB)
    (freshId : String) (now : Nat) (insertFails : Bool) (r : ChatRoom)
    (hrole : u.role = "customer")
    (hsingle : maybeSingle (db.chat_rooms.filter (fun x => x.customer_id == u.id)) =
      some r) :
    (getOrCreateChatRoom (some u) db freshId now insertFails).ret = some r := by
  simp [getOrCreateChatRoom, hrole, hsingle]

/-- When the `maybeSingle` lookup yields a room, `getOrCreateChatRoom`
leaves the database unchanged. -/
theorem getOrCreateChatRoom_db_of_single (u : Identity) (db : DB)
    (freshId : String) (now : Nat) (insertFails : Bool) (r : ChatRoom)
    (hrole : u.role = "customer")
    (hsingle : maybeSingle (db.chat_rooms.filter (fun x => x.customer_id == u.id)) =
      some r) :
    (getOrCreateChatRoom (some u) db freshId now insertFails).db = db := by
  simp [getOrCreateChatRoom, hrole, hsingle]

/-- Counterexample to C3 as stated: on a database where the customer already
holds two rooms, the `maybeSingle` lookup returns null data both times (the
multi-row error is ignored), so each of the two sequential calls inserts and
returns a different fresh room. -/
theorem getOrCreateChatRoom_stable_cex :
    (getOrCreateChatRoom (some custUser) dbTwo "room-n5" 12 false).ret ≠
      (getOrCreateChatRoom (some custUser)
        (getOrCreateChatRoom (some custUser) dbTwo "room-n5" 12 false).db
        "room-n6" 13 false).ret := by decide

/-- Claim C3, amended: when the customer holds at most one room before the
first call, a first call of `getOrCreateChatRoom` that returns a room is
followed by a second sequential call on the resulting database (no
intervening insert from elsewhere) returning that same room.  (With two or
more pre-existing rooms the `maybeSingle` lookup nulls out and each call
inserts a fresh room.) -/
theorem getOrCreateChatRoom_stable (u : Identity) (db : DB) (fid1 fid2 : String)
    (now1 now2 : Nat) (e1 e2 : Bool) (r : ChatRoom)
    (hrole : u.role = "customer")
    (hone : (db.chat_rooms.filter (fun x => x.customer_id == u.id)).length ≤ 1)
    (h1 : (getOrCreateChatRoom (some u) db fid1 now1 e1).ret = some r) :
    (getOrCreateChatRoom (some u)
      (getOrCreateChatRoom (some u) db fid1 now1 e1).db fid2 now2 e2).ret =
      some r := by
  cases hfilter : db.chat_rooms.filter (fun x => x.customer_id == u.id) with
  | cons a t =>
    rw [hfilter] at hone
    have ht : t = [] := by
      cases t with
      | nil => rfl
      | cons b t' => simp at hone
    subst ht
    have hsingle : maybeSingle
        (db.chat_rooms.filter (fun x => x.customer_id == u.id)) = some a := by
      rw [hfilter]
      rfl
    have hret := getOrCreateChatRoom_ret_of_single u db fid1 now1 e1 a hrole hsingle
    rw [hret] at h1
    rw [getOrCreateChatRoom_db_of_single u db fid1 now1 e1 a hrole hsingle]
    rw [getOrCreateChatRoom_ret_of_single u db fid2 now2 e2 a hrole hsingle]
    exact h1
  | nil =>
    have hsnone : maybeSingle
        (db.chat_rooms.filter (fun x => x.customer_id == u.id)) =
        (none : Option ChatRoom) := by
      rw [hfilter]
      rfl
    cases e1 with
    | true =>
      exfalso
      simp [getOrCreateChatRoom, hrole, hsnone] at h1
    | false =>
      have hret : (getOrCreateChatRoom (some u) db fid1 now1 false).ret =
          some (newWaitingRoom u.id fid1 now1) := by
        simp [getOrCreateChatRoom, hrole, hsnone]
      have hreq : newWaitingRoom u.id fid1 now1 = r := by
        rw [hret] at h1
        exact Option.some.inj h1
      have hgdb : (getOrCreateChatRoom (some u) db fid1 now1 false).db =
          { db with chat_rooms := db.chat_rooms ++ [newWaitingRoom u.id fid1 now1] } := by
        simp [getOrCreateChatRoom, hrole, hsnone]
      rw [hgdb]
      have hsingle2 : maybeSingle
          ((db.chat_rooms ++ [newWaitingRoom u.id fid1 now1]).filter
            (fun x => x.customer_id == u.id)) =
          some (newWaitingRoom u.id fid1 now1) := by
        rw [List.filter_append, hfilter]
        simp [newWaitingRoom, maybeSingle]
      rw [getOrCreateChatRoom_ret_of_single u _ fid2 now2 e2
        (newWaitingRoom u.id fid1 now1) hrole hsingle2]
      rw [hreq]

/-- Witness for amended C3: a first call creates a room on the empty database
and the second call finds it. -/
theorem getOrCreateChatRoom_stable_witness :
    (getOrCreateChatRoom (some custUser)
      (getOrCreateChatRoom (some custUser) dbEmpty "room-n1" 7 false).db
      "room-n2" 8 false).ret = some (newWaitingRoom custUser.id "room-n1" 7) :=
  getOrCreateChatRoom_stable custUser dbEmpty "room-n1" "room-n2" 7 8 false false
    (newWaitingRoom custUser.id "room-n1" 7) rfl (by decide) (by decide)

/-- Claim C10: the existing-room lookup of `getOrCreateChatRoom` ignores room
status: a customer whose only room is `closed` gets that closed room back,
with no insert and no other effect. -/
theorem getOrCreateChatRoom_ignores_status (u : Identity) (r : ChatRoom)
    (ms : List Message) (ps : List Profile) (freshId : String) (now : Nat)
    (insertFails : Bool) (hrole : u.role = "customer")
    (hcust : r.customer_id = u.id) (_hstatus : r.status = "closed") :
    (getOrCreateChatRoom (some u) ⟨[r], ms, ps⟩ freshId now insertFails).ret =
      some r ∧
    (getOrCreateChatRoom (some u) ⟨[r], ms, ps⟩ freshId now insertFails).db =
      ⟨[r], ms, ps⟩ ∧
    (getOrCreateChatRoom (some u) ⟨[r], ms, ps⟩ freshId now insertFails).effects =
      [] := by
  have hfilter : ([r] : List ChatRoom).filter (fun x => x.customer_id == u.id) =
      [r] := by
    simp [List.filter, hcust]
  simp [getOrCreateChatRoom, hrole, hfilter, maybeSingle]

/-- Witness for C10 at a concrete closed room. -/
theorem getOrCreateChatRoom_ignores_status_witness :
    (getOrCreateChatRoom (some custUser) ⟨[closedRoom], [], []⟩ "room-n3" 9 false).ret =
      some closedRoom ∧
    (getOrCreateChatRoom (some custUser) ⟨[closedRoom], [], []⟩ "room-n3" 9 false).db =
      ⟨[closedRoom], [], []⟩ ∧
    (getOrCreateChatRoom (some custUser) ⟨[closedRoom], [], []⟩ "room-n3" 9 false).effects =
      [] :=
  getOrCreateChatRoom_ignores_status custUser closedRoom [] [] "room-n3" 9 false
    rfl rfl rfl
